import Mathlib

/-!
Verification of the credential exchange protocol and token lifecycle layer of
the wallet SDK (`CommonNetworkMember` and its helpers).  The TypeScript source
is embedded shallowly: every method becomes a Lean function over explicit
oracle environments standing for the external collaborators (JWT codec,
signing oracle, backend API services); fallible code returns `Except`;
JavaScript field presence (`typeof x !== 'undefined'`) becomes `Option`;
the one place the source mutates shared data (`buildRevocationListStatus`
pushing onto an aliased `@context` array) is modelled with an explicit array
store.  `ParametersValidator.validate` (dynamic shape checks on inputs that
are well typed by construction here) is modelled as accepting.
-/

namespace AffinidiSdk

/-- Error object of the SDK (`SdkError`): an error code such as COR-1, the
`errors` message list and `credentials` carried in its context where the
source puts them there, or a wrapper around an original cause (COR-18). -/
inductive SdkError where
  | base (code : String) (messages : List String) (credentialIds : List String) : SdkError
  | wrapped (code : String) (cause : SdkError) : SdkError
  deriving DecidableEq, Repr

/-- The `code` of an `SdkError`. -/
def SdkError.code : SdkError → String
  | .base c _ _ => c
  | .wrapped c _ => c

/-- A signed credential as the share-response path inspects it: the fields the
structural check reads (`issued`, `issuanceDate`, `claim`,
`credentialSubject`), the `id`, the holder id and the ordered `type` tags.
`Option.isSome` models the JavaScript `typeof x !== 'undefined'` test. -/
structure SignedCredential where
  id : String := ""
  issued : Option String := none
  issuanceDate : Option String := none
  claim : Option String := none
  credentialSubject : Option String := none
  holderId : Option String := none
  type : List String := []
  deriving DecidableEq, Repr

/-- A credential requirement: `\x7b type: ordered sequence of type tags \x7d`. -/
structure CredentialRequirement where
  type : List String := []
  deriving DecidableEq, Repr

/-- The variant-specific `interactionToken` content of a decoded JWT that the
embedded methods read: the share request's `credentialRequirements`. -/
structure InteractionTokenData where
  credentialRequirements : List CredentialRequirement := []
  deriving DecidableEq, Repr

/-- Decoded JWT payload: issuer, `jti` (nonce) and the interaction payload. -/
structure JwtPayload where
  iss : String := ""
  jti : String := ""
  interactionToken : InteractionTokenData := {}
  deriving DecidableEq, Repr

/-- A decoded JWT object as returned by `JwtService.fromJWT`. -/
structure Jwt where
  payload : JwtPayload := {}
  deriving DecidableEq, Repr

/-! ## Structural validation of supplied credentials

`_validateSignedCredentialsSupportedStructures` of the source: one generic
message is pushed per failing check, in credential order, and a single
COR-1 error carrying all messages (and the credentials) is thrown when any
check failed. -/

/-- The error messages the source's per-credential loop body pushes for one
credential: a legacy credential (`claim` present) must have `issued`; a
current-form credential must have `issuanceDate` and `credentialSubject`. -/
def credentialStructureErrors (credential : SignedCredential) : List String :=
  let hasIssuedDate := credential.issued.isSome
  let hasIssuanceDate := credential.issuanceDate.isSome
  let isLegacyCredential := credential.claim.isSome
  let hasCredentialSubject := credential.credentialSubject.isSome
  if isLegacyCredential then
    if !hasIssuedDate then ["Parameter \"issued\" is missing for SignedCredential"] else []
  else
    (if !hasIssuanceDate then ["Parameter \"issuanceDate\" is missing for SignedCredential"]
     else []) ++
    (if !hasCredentialSubject then
      ["Parameter \"credentialSubject\" is missing for SignedCredential"]
     else [])

/-- `_validateSignedCredentialsSupportedStructures(credentials)`: collect the
messages of every credential in order; throw `SdkError('COR-1',
\x7b errors, credentials \x7d)` when the list is nonempty. -/
def validateSignedCredentialsSupportedStructures
    (credentials : List SignedCredential) : Except SdkError Unit :=
  let errors := (credentials.map credentialStructureErrors).flatten
  if errors.length == 0 then .ok ()
  else .error (.base "COR-1" errors (credentials.map SignedCredential.id))

/-! ## Requested credential types

`getCredentialTypes(credentialRequest)` of the source: walk the request's
`credentialRequirements`, keep those satisfying `isW3cCredential` (a helper
from `./_helpers`, not under `src/`, kept abstract as a parameter) and push
`credential.type[1]` for each.  The JavaScript index read `type[1]` may be
`undefined`, hence `Option String`. -/

/-- `getCredentialTypes` embedded with `isW3cCredential` as a parameter. -/
def getCredentialTypes (isW3c : CredentialRequirement → Bool)
    (credentialRequest : Jwt) : List (Option String) :=
  ((credentialRequest.payload.interactionToken.credentialRequirements.filter isW3c).map
    (fun credential => credential.type.get? 1))

/-! ## Building a credential share response -/

/-- The unsigned credential-response payload the holder builder produces:
the request's `jti` and the credentials selected for inclusion. -/
structure CredentialResponsePayload where
  jti : String := ""
  suppliedCredentials : List SignedCredential := []
  deriving DecidableEq, Repr

/-- Does a supplied credential match the request constraints: its second type
tag is among the request's requested types. -/
def matchesRequestedTypes (requestedTypes : List (Option String))
    (credential : SignedCredential) : Bool :=
  requestedTypes.contains (credential.type.get? 1)

/-- Oracle environment for the share-response builder: the JWT codec
(`JwtService.fromJWT`), the `isW3cCredential` helper, and the composed
signing step (`keysService.signJWT` then `jwtService.encodeObjectToJWT`). -/
structure ShareResponseEnv where
  decode : String → Except SdkError Jwt
  isW3c : CredentialRequirement → Bool
  signEncode : CredentialResponsePayload → String

/-- Modelled from the spec: `HolderService.buildCredentialResponse` is
imported from `./services/HolderService`, which is code of this repository
not present under `src/`.  Per the spec, building a share response filters
the supplied credentials by the request's constraints (a credential is kept
when its second type tag is among the request's requested types) and fails
with `NoMatchingCredentialsError` when, after that filtering, zero
credentials remain to sign and include; otherwise the response payload
carries the request's nonce and the filtered credentials. -/
def buildCredentialResponse (env : ShareResponseEnv)
    (credentialShareRequestToken : String)
    (suppliedCredentials : List SignedCredential) :
    Except SdkError CredentialResponsePayload :=
  match env.decode credentialShareRequestToken with
  | .error e => .error e
  | .ok request =>
    let requestedTypes := getCredentialTypes env.isW3c request
    match suppliedCredentials.filter (matchesRequestedTypes requestedTypes) with
    | [] => .error (.base "NoMatchingCredentialsError" [] [])
    | c :: rest => .ok { jti := request.payload.jti, suppliedCredentials := c :: rest }

/-- `createCredentialShareResponseToken(credentialShareRequestToken,
suppliedCredentials)`: validate parameters (modelled as accepting), run the
structural check, build the response via the holder service, sign and
encode. -/
def createCredentialShareResponseToken (env : ShareResponseEnv)
    (credentialShareRequestToken : String)
    (suppliedCredentials : List SignedCredential) : Except SdkError String :=
  match validateSignedCredentialsSupportedStructures suppliedCredentials with
  | .error e => .error e
  | .ok _ =>
    match buildCredentialResponse env credentialShareRequestToken suppliedCredentials with
    | .error e => .error e
    | .ok credentialResponse => .ok (env.signEncode credentialResponse)

/-- `createDidAuthResponse(didAuthRequestToken)`: the share-response builder
applied to an empty credential list. -/
def createDidAuthResponse (env : ShareResponseEnv)
    (didAuthRequestToken : String) : Except SdkError String :=
  createCredentialShareResponseToken env didAuthRequestToken []

/-! ## Building a credential share request -/

/-- `JwtOptions`: optional audience, expiry, nonce and callback URL. -/
structure JwtOptions where
  audienceDid : Option String := none
  expiresAt : Option String := none
  nonce : Option Nat := none
  callbackUrl : Option String := none
  deriving DecidableEq, Repr

/-- The `params` object `generateCredentialShareRequestToken` assembles for
the verifier API call. -/
structure BuildRequestParams where
  credentialRequirements : List CredentialRequirement := []
  issuerDid : Option String := none
  audienceDid : Option String := none
  expiresAt : Option String := none
  nonce : Option Nat := none
  callbackUrl : Option String := none
  deriving DecidableEq, Repr

/-- The source's `params` construction: requirements and issuer DID always,
the four option fields only when an options object was passed. -/
def buildShareRequestParams (credentialRequirements : List CredentialRequirement)
    (issuerDid : Option String) (options : Option JwtOptions) : BuildRequestParams :=
  match options with
  | none => { credentialRequirements, issuerDid }
  | some o =>
    { credentialRequirements, issuerDid, audienceDid := o.audienceDid,
      expiresAt := o.expiresAt, nonce := o.nonce, callbackUrl := o.callbackUrl }

/-- Oracle environment for the share-request builder: the remote verifier
interaction builder (`BuildCredentialRequest`), the signing oracle
(`keysService.signJWT` with a key id) and the token encoder; `keyId` is the
member's `didDocumentKeyId`. -/
structure ShareRequestEnv where
  buildCredentialRequest : BuildRequestParams → Jwt
  signJWT : Jwt → Option String → Jwt
  encodeObjectToJWT : Jwt → String
  keyId : String

/-- `generateCredentialShareRequestToken(credentialRequirements, issuerDid,
options)`: build params, ask the verifier API for the unsigned payload, sign
with the member's key id, encode. -/
def generateCredentialShareRequestToken (env : ShareRequestEnv)
    (credentialRequirements : List CredentialRequirement)
    (issuerDid : Option String) (options : Option JwtOptions) : String :=
  let credentialShareRequest :=
    env.buildCredentialRequest (buildShareRequestParams credentialRequirements issuerDid options)
  env.encodeObjectToJWT (env.signJWT credentialShareRequest (some env.keyId))

/-- `generateDidAuthRequest(options)`: the share-request builder applied to
an empty requirements list and a null issuer DID. -/
def generateDidAuthRequest (env : ShareRequestEnv) (options : Option JwtOptions) : String :=
  generateCredentialShareRequestToken env [] none options

/-! ## Verifying a credential share response -/

/-- The result record the holder service returns for a share response. -/
structure ShareVerifyResult where
  isValid : Bool := false
  did : String := ""
  jti : String := ""
  suppliedCredentials : List SignedCredential := []
  errors : List String := []
  deriving DecidableEq, Repr

/-- The output of `verifyCredentialShareResponseToken`: the holder result
with `jti` renamed to `nonce`. -/
structure CredentialShareResponseOutput where
  isValid : Bool := false
  did : String := ""
  nonce : String := ""
  suppliedCredentials : List SignedCredential := []
  errors : List String := []
  deriving DecidableEq, Repr

/-- The `credentialShareRequest` argument: either a literal token (possibly
absent) or a resolver function from the response's nonce to a token, where
`none` stands for any falsy resolver result. -/
inductive ShareRequestArg where
  | token (t : Option String)
  | resolver (f : String → Option String)

/-- Oracle environment for share-response verification: the JWT codec and
the holder service's verification call
(`verifyCredentialShareResponse(responseToken, requestToken?, shouldOwn)`). -/
structure VerifyShareEnv where
  decode : String → Except SdkError Jwt
  holderVerify : String → Option String → Bool → ShareVerifyResult

/-- The request-resolution front half of `verifyCredentialShareResponseToken`:
when the request argument is a function, decode the response, call the
resolver on its `jti`, and throw `SdkError('COR-15')` when the resolver
returns a falsy value or a token that does not decode; when the request
argument is a literal (possibly absent) token, pass it through. -/
def resolveShareRequestToken (env : VerifyShareEnv)
    (credentialShareResponseToken : String) (credentialShareRequest : ShareRequestArg) :
    Except SdkError (Option String) :=
  match credentialShareRequest with
  | .token t => .ok t
  | .resolver f =>
    match env.decode credentialShareResponseToken with
    | .error e => .error e
    | .ok credentialShareResponse =>
      let requestNonce := credentialShareResponse.payload.jti
      match f requestNonce with
      | none => .error (.base "COR-15" [] [])
      | some resolvedToken =>
        match env.decode resolvedToken with
        | .error _ => .error (.base "COR-15" [] [])
        | .ok _ => .ok (some resolvedToken)

/-- Continuing `verifyCredentialShareResponseToken`: once a request token is
in hand, the holder service verifies and the result is returned with `jti`
renamed to `nonce`.  The resolution step is `resolveShareRequestToken`. -/
def verifyCredentialShareResponseToken (env : VerifyShareEnv)
    (credentialShareResponseToken : String) (credentialShareRequest : ShareRequestArg)
    (shouldOwn : Bool := true) : Except SdkError CredentialShareResponseOutput :=
  match resolveShareRequestToken env credentialShareResponseToken credentialShareRequest with
  | .error e => .error e
  | .ok credentialShareRequestToken =>
    let response :=
      env.holderVerify credentialShareResponseToken credentialShareRequestToken shouldOwn
    .ok { isValid := response.isValid, did := response.did, nonce := response.jti,
          suppliedCredentials := response.suppliedCredentials, errors := response.errors }

/-- `verifyDidAuthResponse(didAuthResponseToken, didAuthRequestToken?)`:
share-response verification with the default `shouldOwn = true`. -/
def verifyDidAuthResponse (env : VerifyShareEnv) (didAuthResponseToken : String)
    (didAuthRequestToken : Option String) : Except SdkError CredentialShareResponseOutput :=
  verifyCredentialShareResponseToken env didAuthResponseToken (.token didAuthRequestToken)

/-! ## Spec model of the holder share-response verification

`HolderService.verifyCredentialShareResponse` is code of this repository not
present under `src/`; it is modelled from the spec for the DID-auth claim. -/

/-- Modelled from the spec: the per-requirement type-matching errors of
`HolderService.verifyCredentialShareResponse` (not under `src/`).  Per the
spec, when the request carries credential requirements the response is
matched against them; a requirement with no supplied credential of its
requested (second) type yields an error. -/
def typeMatchingErrors (requirements : List CredentialRequirement)
    (credentials : List SignedCredential) : List String :=
  requirements.filterMap (fun requirement =>
    if credentials.any (fun c => c.type.get? 1 == requirement.type.get? 1) then none
    else some "No credential of a requested type was supplied")

/-- Modelled from the spec: the per-credential ownership errors of
`HolderService.verifyCredentialShareResponse` (not under `src/`).  With
`shouldOwn = true` every supplied credential's subject DID must equal the
responder's DID; a violation is reported per credential, not thrown. -/
def ownershipErrors (shouldOwn : Bool) (responderDid : String)
    (credentials : List SignedCredential) : List String :=
  if shouldOwn then
    credentials.filterMap (fun c =>
      if c.holderId == some responderDid then none
      else some ("Credential " ++ c.id ++ " is not owned by the responder"))
  else []

/-- Modelled from the spec: `HolderService.verifyCredentialShareResponse`
(not under `src/`).  Signature and audience/nonce/expiry claim checks are
oracle outcomes (`signatureErrors`, `claimErrors`); the request's
requirements drive type matching; `shouldOwn` drives the ownership check;
the result is valid exactly when no check produced an error. -/
def holderVerifyCredentialShareResponse
    (signatureErrors claimErrors : List String) (responderDid : String)
    (requestRequirements : List CredentialRequirement) (shouldOwn : Bool)
    (responseJti : String) (credentials : List SignedCredential) : ShareVerifyResult :=
  let errors := signatureErrors ++ claimErrors ++
    typeMatchingErrors requestRequirements credentials ++
    ownershipErrors shouldOwn responderDid credentials
  { isValid := errors.isEmpty, did := responderDid, jti := responseJti,
    suppliedCredentials := credentials, errors := errors }

/-- Replace every supplied credential's type tags (and nothing else), used to
state that a verification path never inspects credential types. -/
def retypeCredentials (newTypes : SignedCredential → List String)
    (credentials : List SignedCredential) : List SignedCredential :=
  credentials.map (fun c => { c with type := newTypes c })

/-! ## Verifiable presentations -/

/-- The unsigned presentation `buildVPV1Unsigned` produces: an id, the
filtered credentials and the holder. -/
structure UnsignedPresentation where
  id : String := ""
  vcs : List SignedCredential := []
  holderId : String := ""
  deriving DecidableEq, Repr

/-- A signed presentation: the unsigned body plus the proof's challenge and
domain bound by `signPresentation`'s purpose argument. -/
structure SignedPresentation where
  body : UnsignedPresentation := {}
  proofChallenge : String := ""
  proofDomain : String := ""
  deriving DecidableEq, Repr

/-- Oracle environment for `createPresentationFromChallenge`: the JWT codec,
the `isW3cCredential` helper, the member's DID, the random presentation id
and the signing oracle (`affinity.signPresentation`). -/
structure CreatePresentationEnv where
  decode : String → Except SdkError Jwt
  isW3c : CredentialRequirement → Bool
  myDid : String
  presentationId : String
  signPresentation : UnsignedPresentation → String → String → SignedPresentation

/-- `createPresentationFromChallenge(challenge, vcs, domain)`: read the
requested types off the decoded challenge, build an unsigned presentation
holding exactly the credentials whose second type tag is among them, and
sign it with the challenge/domain purpose.  No error is raised for dropped
credentials, even when the filtered list is empty. -/
def createPresentationFromChallenge (env : CreatePresentationEnv)
    (challenge : String) (vcs : List SignedCredential) (domain : String) :
    Except SdkError SignedPresentation :=
  match env.decode challenge with
  | .error e => .error e
  | .ok challengeJwt =>
    let requestedTypes := getCredentialTypes env.isW3c challengeJwt
    .ok (env.signPresentation
      { id := env.presentationId,
        vcs := vcs.filter (fun vc => requestedTypes.contains (vc.type.get? 1)),
        holderId := env.myDid }
      challenge domain)

/-- The validated presentation data `affinity.validatePresentation` returns
on success: the fields `verifyPresentation` reads (`holder.id`,
`proof.challenge`) plus the rest of the document kept opaque. -/
structure PresentationData where
  holderId : String := ""
  proofChallenge : String := ""
  document : String := ""
  deriving DecidableEq, Repr

/-- Outcome of phase-1 validation (`affinity.validatePresentation`):
`result === true` with the validated data, or a failure with an error. -/
inductive ValidatePresentationResult where
  | valid (data : PresentationData)
  | invalid (error : SdkError)
  deriving DecidableEq, Repr

/-- The `suppliedPresentation` field of the verification output: the raw
input on phase-1 failure, the validated data otherwise. -/
inductive SuppliedPresentation where
  | raw (vp : String)
  | validated (data : PresentationData)
  deriving DecidableEq, Repr

/-- The output record of `verifyPresentation`. -/
structure PresentationValidationOutput where
  isValid : Bool := false
  did : Option String := none
  challenge : Option String := none
  suppliedPresentation : SuppliedPresentation := .raw ""
  errors : Option (List SdkError) := none
  deriving DecidableEq, Repr

/-- Oracle environment for `verifyPresentation`: phase-1 structural and
cryptographic validation (`affinity.validatePresentation`), the phase-2
challenge freshness check (`holderService.verifyPresentationChallenge`,
covering decoding, issuer, audience and expiry of the embedded challenge)
and the verifier's own DID. -/
structure VerifyPresentationEnv where
  validatePresentation : String → ValidatePresentationResult
  verifyPresentationChallenge : String → String → Except SdkError Unit
  myDid : String

/-- `verifyPresentation(vp)`: phase 1 validates the presentation; on success
phase 2 checks the embedded challenge against the verifier's DID, a failure
downgrading the result to invalid while keeping the validated data; both
phases succeeding yields a valid result with the holder's DID and the
proof's challenge. -/
def verifyPresentation (env : VerifyPresentationEnv) (vp : String) :
    PresentationValidationOutput :=
  match env.validatePresentation vp with
  | .valid data =>
    match env.verifyPresentationChallenge data.proofChallenge env.myDid with
    | .error e =>
      { isValid := false, suppliedPresentation := .validated data, errors := some [e] }
    | .ok _ =>
      { isValid := true, did := some data.holderId, challenge := some data.proofChallenge,
        suppliedPresentation := .validated data }
  | .invalid e =>
    { isValid := false, suppliedPresentation := .raw vp, errors := some [e] }

/-! ## Revocation list

`buildRevocationListStatus` copies the unsigned credential with
`Object.assign(\x7b\x7d, unsignedCredential, \x7b credentialStatus \x7d)` — a
shallow copy, so the `@context` array is shared by reference between the
input and the copy — and then pushes the revocation-list context URI onto
that shared array.  Arrays are therefore modelled as references into an
explicit array store, field values as immutable. -/

/-- Store of JavaScript array values, indexed by reference. -/
abbrev ContextStore := Nat → List String

/-- In-place `push` on the array at reference `r`. -/
def pushAt (store : ContextStore) (r : Nat) (value : String) : ContextStore :=
  fun i => if i = r then store r ++ [value] else store i

/-- The `credentialStatus` entry the revocation service returns. -/
structure CredentialStatus where
  id : String := ""
  statusType : String := "RevocationList2020Status"
  revocationListIndex : Nat := 0
  revocationListCredentialId : String := ""
  deriving DecidableEq, Repr

/-- A revocation-list credential after local signing; the source overwrites
its `issuanceDate` with the current time just before publishing. -/
structure SignedListCredential where
  content : String := ""
  issuanceDate : String := ""
  deriving DecidableEq, Repr

/-- The revocation service's response to `buildRevocationListStatus`
(`isPublisRequired` keeps the source's spelling). -/
structure RevocationBuildResult where
  credentialStatus : CredentialStatus := {}
  isPublisRequired : Bool := false
  revocationListCredential : String := ""
  deriving DecidableEq, Repr

/-- An unsigned credential as a JavaScript object: scalar fields are
immutable values, the `@context` array is a reference into the store. -/
structure UnsignedCredentialObject where
  id : String := ""
  holderId : Option String := none
  contextRef : Nat := 0
  credentialStatus : Option CredentialStatus := none
  otherFields : List (String × String) := []
  deriving DecidableEq, Repr

/-- Externally visible calls the revocation methods make after consulting the
service: publishing a signed revocation-list credential. -/
inductive RevocationEffect where
  | publish (signedListCredential : SignedListCredential)
  deriving DecidableEq, Repr

/-- Oracle environment for the revocation methods: the revocation service's
`buildRevocationListStatus` and `revokeCredential` calls (each returning the
current list credential), the signing oracle (`affinity.signCredential` with
the member's seed and password already applied) and the current time. -/
structure RevocationEnv where
  serviceBuildStatus : String → Option String → String → RevocationBuildResult
  serviceRevoke : String → String → String → String
  signCredential : String → String
  now : String

/-- The revocation-list context URI pushed by `buildRevocationListStatus`. -/
def revocationContextUri : String := "https://w3id.org/vc-revocation-list-2020/v1"

/-- `buildRevocationListStatus(unsignedCredential,
revocationServiceAccessToken)`: ask the service for a status entry, shallow
copy the credential with the status attached, push the revocation context
URI onto the (shared) `@context` array, and sign and publish the list
credential only when the service reported `isPublisRequired`.  Returns the
revokable copy, the updated array store and the publish effects. -/
def buildRevocationListStatus (env : RevocationEnv) (store : ContextStore)
    (unsignedCredential : UnsignedCredentialObject)
    (revocationServiceAccessToken : String) :
    UnsignedCredentialObject × ContextStore × List RevocationEffect :=
  let credentialId := unsignedCredential.id
  let subjectDid := unsignedCredential.holderId
  let result := env.serviceBuildStatus credentialId subjectDid revocationServiceAccessToken
  let revokableUnsignedCredential :=
    { unsignedCredential with credentialStatus := some result.credentialStatus }
  let store2 := pushAt store revokableUnsignedCredential.contextRef revocationContextUri
  let effects :=
    if result.isPublisRequired then
      [RevocationEffect.publish
        { content := env.signCredential result.revocationListCredential,
          issuanceDate := env.now }]
    else []
  (revokableUnsignedCredential, store2, effects)

/-- `revokeCredential(credentialId, revocationReason,
revocationServiceAccessToken)`: ask the service to flip the status, then
unconditionally sign and publish the updated list credential. -/
def revokeCredential (env : RevocationEnv) (credentialId : String)
    (revocationReason : String) (revocationServiceAccessToken : String) :
    List RevocationEffect :=
  let revocationListCredential :=
    env.serviceRevoke credentialId revocationReason revocationServiceAccessToken
  [RevocationEffect.publish
    { content := env.signCredential revocationListCredential, issuanceDate := env.now }]

/-! ## Encrypted-seed storage retry

`storeEncryptedSeed` wraps its single `walletStorageService.storeEncryptedSeed`
call in `retry(fn, \x7b retries: 3 \x7d)` of the `async-retry` library: the
body runs up to 1 + 3 times; `bail(e)` aborts the whole retry rejecting with
`e`; a thrown error triggers another attempt until the retries are
exhausted, after which the last thrown error is rejected with. -/

/-- One attempt of the retried body, determined by the outcome of the k-th
external store call (`none` = success, `some e` = failure with `e`): a
failure with a code in the fixed list bails with the original error, any
other failure throws the wrapping `SdkError('COR-18', ..., error)`. -/
inductive AttemptOutcome where
  | success
  | bailWith (e : SdkError)
  | thrown (e : SdkError)
  deriving DecidableEq, Repr

/-- The body of the `retry` callback in `storeEncryptedSeed`, evaluated on
the k-th call's outcome: `errorCodes = ['COR-1', 'WAL-2']` bail out with the
original error; anything else is wrapped as COR-18 and thrown. -/
def storeAttempt (storeCallResult : Nat → Option SdkError) (k : Nat) : AttemptOutcome :=
  match storeCallResult k with
  | none => .success
  | some error =>
    if ["COR-1", "WAL-2"].contains error.code then .bailWith error
    else .thrown (.wrapped "COR-18" error)

/-- The `async-retry` executor: run the body at attempt index `k`; stop on
success or bail; on a thrown error retry while retries remain, otherwise
reject with the last thrown error.  Returns the result paired with the
number of calls made. -/
def runRetry (body : Nat → AttemptOutcome) : Nat → Nat → Except SdkError Unit × Nat
  | 0, k =>
    match body k with
    | .success => (.ok (), k + 1)
    | .bailWith e => (.error e, k + 1)
    | .thrown e => (.error e, k + 1)
  | n + 1, k =>
    match body k with
    | .success => (.ok (), k + 1)
    | .bailWith e => (.error e, k + 1)
    | .thrown _ => runRetry body n (k + 1)

/-- `storeEncryptedSeed(username, password, token)`, reduced to its retry
wrapper: the external store call under `retry(..., \x7b retries: 3 \x7d)`,
driven by the per-call outcomes `storeCallResult`. -/
def storeEncryptedSeed (storeCallResult : Nat → Option SdkError) :
    Except SdkError Unit × Nat :=
  runRetry (storeAttempt storeCallResult) 3 0

/-! ## Concrete fixtures

Closed sample environments and values used by the witness and counterexample
theorems. -/

/-- Character-list prefix test, structural so the kernel can evaluate it. -/
def charsLeadMatch : List Char → List Char → Bool
  | [], _ => true
  | _ :: _, [] => false
  | a :: as, b :: bs => a == b && charsLeadMatch as bs

/-- Character-list infix test, structural so the kernel can evaluate it. -/
def charsOccur (needle : List Char) : List Char → Bool
  | [] => charsLeadMatch needle []
  | b :: bs => charsLeadMatch needle (b :: bs) || charsOccur needle bs

/-- Substring test used to state that an error message does not mention a
credential identifier. -/
def mentions (haystack needle : String) : Bool :=
  charsOccur needle.data haystack.data

/-- A requirement asking for a phone credential. -/
def sampleRequirement : CredentialRequirement :=
  { type := ["Credential", "PhoneCredentialPersonV1"] }

/-- A decoded share-request JWT carrying `sampleRequirement`. -/
def sampleRequestJwt : Jwt :=
  { payload := { iss := "did:elem:verifier", jti := "nonce-1",
                 interactionToken := { credentialRequirements := [sampleRequirement] } } }

/-- A structurally valid credential matching `sampleRequirement`. -/
def samplePhoneCredential : SignedCredential :=
  { id := "urn:claim:phone", issuanceDate := some "2021-02-03T10:00:00Z",
    credentialSubject := some "subject-data", holderId := some "did:elem:holder",
    type := ["Credential", "PhoneCredentialPersonV1"] }

/-- A structurally valid credential whose second type tag matches no
requirement of `sampleRequestJwt`. -/
def sampleEmailCredential : SignedCredential :=
  { id := "urn:claim:email", issuanceDate := some "2021-02-03T10:00:00Z",
    credentialSubject := some "subject-data", holderId := some "did:elem:holder",
    type := ["Credential", "EmailCredentialPersonV1"] }

/-- A current-form credential with `id` `urn:claim:a` lacking `issuanceDate`. -/
def sampleBrokenCredentialA : SignedCredential :=
  { id := "urn:claim:a", credentialSubject := some "subject-data",
    holderId := some "did:elem:holder", type := ["Credential", "PhoneCredentialPersonV1"] }

/-- A current-form credential with `id` `urn:claim:b` lacking `issuanceDate`. -/
def sampleBrokenCredentialB : SignedCredential :=
  { id := "urn:claim:b", credentialSubject := some "subject-data",
    holderId := some "did:elem:holder", type := ["Credential", "PhoneCredentialPersonV1"] }

/-- A concrete share-response environment decoding only `request-token`. -/
def sampleShareResponseEnv : ShareResponseEnv :=
  { decode := fun s => if s = "request-token" then .ok sampleRequestJwt
              else .error (.base "COR-9" [] []),
    isW3c := fun _ => true,
    signEncode := fun _ => "signed-response-token" }

/-- A decoded share-response JWT with nonce `nonce-1`. -/
def sampleResponseJwt : Jwt :=
  { payload := { iss := "did:elem:holder", jti := "nonce-1" } }

/-- A concrete share-verification environment: decodes `response-token` and
`request-token`, and a holder oracle answering a fixed valid result. -/
def sampleVerifyShareEnv : VerifyShareEnv :=
  { decode := fun s =>
      if s = "response-token" then .ok sampleResponseJwt
      else if s = "request-token" then .ok sampleRequestJwt
      else .error (.base "COR-9" [] []),
    holderVerify := fun _ _ _ =>
      { isValid := true, did := "did:elem:holder", jti := "nonce-1",
        suppliedCredentials := [samplePhoneCredential], errors := [] } }

/-- A resolver returning `request-token` for nonce `nonce-1`, nothing
otherwise. -/
def sampleResolver : String → Option String :=
  fun nonce => if nonce = "nonce-1" then some "request-token" else none

/-- A concrete presentation-building environment decoding only
`challenge-token`. -/
def sampleCreatePresentationEnv : CreatePresentationEnv :=
  { decode := fun s => if s = "challenge-token" then .ok sampleRequestJwt
              else .error (.base "COR-9" [] []),
    isW3c := fun _ => true,
    myDid := "did:elem:holder",
    presentationId := "presentationId:0102030405060708",
    signPresentation := fun vp challenge domain =>
      { body := vp, proofChallenge := challenge, proofDomain := domain } }

/-- Validated presentation data used by the verification witness. -/
def samplePresentationData : PresentationData :=
  { holderId := "did:elem:holder", proofChallenge := "challenge-token",
    document := "vp-document" }

/-- A concrete presentation-verification environment: phase 1 accepts the
string `good-vp`; phase 2 rejects every challenge with a COR-19 error. -/
def sampleVerifyPresentationEnv : VerifyPresentationEnv :=
  { validatePresentation := fun vp =>
      if vp = "good-vp" then .valid samplePresentationData
      else .invalid (.base "COR-4" [] []),
    verifyPresentationChallenge := fun _ _ => .error (.base "COR-19" [] []),
    myDid := "did:elem:verifier" }

/-- A concrete revocation environment: a publish-required build response and
deterministic signing. -/
def sampleRevocationEnv : RevocationEnv :=
  { serviceBuildStatus := fun credentialId _ _ =>
      { credentialStatus := { id := credentialId ++ "#status",
                              revocationListIndex := 5,
                              revocationListCredentialId := "rev-list-1" },
        isPublisRequired := true, revocationListCredential := "rev-list-body" },
    serviceRevoke := fun _ _ _ => "rev-list-body-after-revoke",
    signCredential := fun body => "signed:" ++ body,
    now := "2021-02-03T10:00:00Z" }

/-- An unsigned credential whose `@context` array lives at reference 0. -/
def sampleUnsignedCredential : UnsignedCredentialObject :=
  { id := "urn:claim:phone", holderId := some "did:elem:holder", contextRef := 0,
    otherFields := [("issuanceDate", "2021-02-03T10:00:00Z")] }

/-- An array store whose array 0 already contains the revocation context
URI. -/
def sampleStoreWithUri : ContextStore :=
  fun i => if i = 0 then ["https://www.w3.org/2018/credentials/v1", revocationContextUri]
           else []

/-- A store-call outcome that always fails with a retryable code. -/
def sampleAlwaysFailingStore : Nat → Option SdkError :=
  fun _ => some (.base "WAL-99" [] [])

/-- A store-call outcome failing immediately with the non-retryable WAL-2. -/
def sampleBailingStore : Nat → Option SdkError :=
  fun _ => some (.base "WAL-2" [] [])

/-! ## Theorems -/

/-- Helper: the structural check succeeds exactly when no credential produced
an error message. -/
theorem validateStructures_ok_of_no_errors (credentials : List SignedCredential)
    (h : (credentials.map credentialStructureErrors).flatten = []) :
    validateSignedCredentialsSupportedStructures credentials = .ok () := by
  simp [validateSignedCredentialsSupportedStructures, h]

/-- Helper: the structural check throws COR-1 with all collected messages
when any credential produced one. -/
theorem validateStructures_error_of_errors (credentials : List SignedCredential)
    (h : (credentials.map credentialStructureErrors).flatten ≠ []) :
    validateSignedCredentialsSupportedStructures credentials =
      .error (.base "COR-1" ((credentials.map credentialStructureErrors).flatten)
        (credentials.map SignedCredential.id)) := by
  have hlen : (((credentials.map credentialStructureErrors).flatten).length == 0) = false := by
    simp only [beq_eq_false_iff_ne, ne_eq, List.length_eq_zero]
    exact h
  simp only [validateSignedCredentialsSupportedStructures, hlen]
  simp

/-- C1: for every share request token and every supplied credential list that
passes the structural check, building a share response fails with
`NoMatchingCredentialsError` exactly when filtering the supplied credentials
by the request's constraints leaves zero credentials, and every produced
token signs a response whose credential set is the nonempty filtered
list — never an empty one. -/
theorem shareResponse_noMatchingCredentials_iff_filteredEmpty
    (env : ShareResponseEnv) (requestToken : String)
    (supplied : List SignedCredential) (request : Jwt)
    (hdec : env.decode requestToken = .ok request)
    (hstruct : (supplied.map credentialStructureErrors).flatten = []) :
    (supplied.filter (matchesRequestedTypes (getCredentialTypes env.isW3c request)) = [] ↔
      createCredentialShareResponseToken env requestToken supplied =
        .error (.base "NoMatchingCredentialsError" [] [])) ∧
    (∀ s, createCredentialShareResponseToken env requestToken supplied = .ok s →
      supplied.filter (matchesRequestedTypes (getCredentialTypes env.isW3c request)) ≠ [] ∧
      s = env.signEncode
        { jti := request.payload.jti,
          suppliedCredentials :=
            supplied.filter (matchesRequestedTypes (getCredentialTypes env.isW3c request)) }) := by
  have hval := validateStructures_ok_of_no_errors supplied hstruct
  cases hfe : supplied.filter (matchesRequestedTypes (getCredentialTypes env.isW3c request)) with
  | nil =>
    have hres : createCredentialShareResponseToken env requestToken supplied =
        .error (.base "NoMatchingCredentialsError" [] []) := by
      unfold createCredentialShareResponseToken buildCredentialResponse
      rw [hval, hdec]
      simp only [hfe]
    simp [hres]
  | cons c rest =>
    have hres : createCredentialShareResponseToken env requestToken supplied =
        .ok (env.signEncode { jti := request.payload.jti, suppliedCredentials := c :: rest }) := by
      unfold createCredentialShareResponseToken buildCredentialResponse
      rw [hval, hdec]
      simp only [hfe]
    simp [hres, hfe]

/-- C1 witness: a request asking for a phone credential answered with only an
email credential filters down to nothing and fails with
`NoMatchingCredentialsError`. -/
theorem shareResponse_noMatchingCredentials_witness :
    ([sampleEmailCredential].map credentialStructureErrors).flatten = [] ∧
    sampleShareResponseEnv.decode "request-token" = .ok sampleRequestJwt ∧
    createCredentialShareResponseToken sampleShareResponseEnv "request-token"
      [sampleEmailCredential] = .error (.base "NoMatchingCredentialsError" [] []) :=
  ⟨rfl, rfl,
    (shareResponse_noMatchingCredentials_iff_filteredEmpty sampleShareResponseEnv
      "request-token" [sampleEmailCredential] sampleRequestJwt rfl rfl).1.mp (by decide)⟩

/-- C2 counterexample: two supplied credentials (ids `urn:claim:a` and
`urn:claim:b`) both lack `issuanceDate`; the thrown COR-1 error's list
contains one generic message per failure, and neither offending credential's
identifier occurs anywhere in those messages, refuting that the error list
enumerates every offending credential's identifier. -/
theorem shareResponse_validationError_counterexample :
    createCredentialShareResponseToken sampleShareResponseEnv "request-token"
      [sampleBrokenCredentialA, sampleBrokenCredentialB] =
      .error (.base "COR-1"
        ["Parameter \"issuanceDate\" is missing for SignedCredential",
         "Parameter \"issuanceDate\" is missing for SignedCredential"]
        ["urn:claim:a", "urn:claim:b"]) ∧
    (["Parameter \"issuanceDate\" is missing for SignedCredential",
      "Parameter \"issuanceDate\" is missing for SignedCredential"].all
      (fun m => !(mentions m "urn:claim:a") && !(mentions m "urn:claim:b"))) = true ∧
    ([sampleBrokenCredentialA, sampleBrokenCredentialB].map
      credentialStructureErrors).flatten =
      ([{ sampleBrokenCredentialA with id := "urn:claim:x" },
        { sampleBrokenCredentialB with id := "urn:claim:y" }].map
        credentialStructureErrors).flatten := by
  refine ⟨rfl, by decide, by decide⟩

/-- C2 amended: with at least one structurally failing supplied credential,
`createCredentialShareResponseToken` throws a COR-1 `ValidationError` whose
error list is the concatenation, in order, of every credential's generic
missing-parameter messages — so every failing credential is covered, not
only the first — while the credential identifiers appear only in the
attached credentials context, not in the messages. -/
theorem shareResponse_validationError_enumerates_all_failures
    (env : ShareResponseEnv) (requestToken : String)
    (supplied : List SignedCredential)
    (h : (supplied.map credentialStructureErrors).flatten ≠ []) :
    createCredentialShareResponseToken env requestToken supplied =
      .error (.base "COR-1" ((supplied.map credentialStructureErrors).flatten)
        (supplied.map SignedCredential.id)) ∧
    ∀ c ∈ supplied, ∀ m ∈ credentialStructureErrors c,
      m ∈ (supplied.map credentialStructureErrors).flatten := by
  constructor
  · unfold createCredentialShareResponseToken
    rw [validateStructures_error_of_errors supplied h]
  · intro c hc m hm
    simp only [List.mem_flatten, List.mem_map]
    exact ⟨credentialStructureErrors c, ⟨c, hc, rfl⟩, hm⟩

/-- C2 amended witness: the two broken credentials yield the COR-1 error with
both generic messages, and each failing credential's message is in the
list. -/
theorem shareResponse_validationError_enumerates_witness :
    ([sampleBrokenCredentialA, sampleBrokenCredentialB].map
      credentialStructureErrors).flatten ≠ [] ∧
    createCredentialShareResponseToken sampleShareResponseEnv "request-token"
      [sampleBrokenCredentialA, sampleBrokenCredentialB] =
      .error (.base "COR-1"
        (([sampleBrokenCredentialA, sampleBrokenCredentialB].map
          credentialStructureErrors).flatten)
        ["urn:claim:a", "urn:claim:b"]) :=
  ⟨by decide,
    (shareResponse_validationError_enumerates_all_failures sampleShareResponseEnv
      "request-token" [sampleBrokenCredentialA, sampleBrokenCredentialB] (by decide)).1⟩

/-- C3: with a resolver function as the request argument,
`verifyCredentialShareResponseToken` consults the resolver only at the
response's nonce (`jti`), throws the COR-15 `ReplayProtectionError` exactly
when the resolver returns nothing or a token that cannot be decoded, and
otherwise verifies with the resolved request token. -/
theorem verifyShareResponse_resolver_replayProtection
    (env : VerifyShareEnv) (responseToken : String) (response : Jwt)
    (f : String → Option String) (shouldOwn : Bool)
    (hdec : env.decode responseToken = .ok response) :
    (∀ g : String → Option String, g response.payload.jti = f response.payload.jti →
      verifyCredentialShareResponseToken env responseToken (.resolver g) shouldOwn =
        verifyCredentialShareResponseToken env responseToken (.resolver f) shouldOwn) ∧
    ((∃ e, verifyCredentialShareResponseToken env responseToken (.resolver f) shouldOwn =
        .error e ∧ e.code = "COR-15") ↔
      (f response.payload.jti = none ∨
        ∃ t e, f response.payload.jti = some t ∧ env.decode t = .error e)) ∧
    (∀ t request, f response.payload.jti = some t → env.decode t = .ok request →
      verifyCredentialShareResponseToken env responseToken (.resolver f) shouldOwn =
        .ok { isValid := (env.holderVerify responseToken (some t) shouldOwn).isValid,
              did := (env.holderVerify responseToken (some t) shouldOwn).did,
              nonce := (env.holderVerify responseToken (some t) shouldOwn).jti,
              suppliedCredentials :=
                (env.holderVerify responseToken (some t) shouldOwn).suppliedCredentials,
              errors := (env.holderVerify responseToken (some t) shouldOwn).errors }) := by
  refine ⟨?_, ?_, ?_⟩
  · intro g hg
    simp only [verifyCredentialShareResponseToken, resolveShareRequestToken, hdec, hg]
  · cases hf : f response.payload.jti with
    | none =>
      have h1 : verifyCredentialShareResponseToken env responseToken (.resolver f)
          shouldOwn = .error (.base "COR-15" [] []) := by
        simp only [verifyCredentialShareResponseToken, resolveShareRequestToken, hdec, hf]
      rw [h1]
      constructor
      · intro _
        exact Or.inl rfl
      · intro _
        exact ⟨.base "COR-15" [] [], rfl, rfl⟩
    | some t =>
      cases hd : env.decode t with
      | error e =>
        have h1 : verifyCredentialShareResponseToken env responseToken (.resolver f)
            shouldOwn = .error (.base "COR-15" [] []) := by
          simp only [verifyCredentialShareResponseToken, resolveShareRequestToken, hdec,
            hf, hd]
        rw [h1]
        constructor
        · intro _
          exact Or.inr ⟨t, e, rfl, hd⟩
        · intro _
          exact ⟨.base "COR-15" [] [], rfl, rfl⟩
      | ok request =>
        have h1 : verifyCredentialShareResponseToken env responseToken (.resolver f)
            shouldOwn =
            .ok { isValid := (env.holderVerify responseToken (some t) shouldOwn).isValid,
                  did := (env.holderVerify responseToken (some t) shouldOwn).did,
                  nonce := (env.holderVerify responseToken (some t) shouldOwn).jti,
                  suppliedCredentials :=
                    (env.holderVerify responseToken (some t) shouldOwn).suppliedCredentials,
                  errors := (env.holderVerify responseToken (some t) shouldOwn).errors } := by
          simp only [verifyCredentialShareResponseToken, resolveShareRequestToken, hdec,
            hf, hd]
        rw [h1]
        constructor
        · rintro ⟨e, he, _⟩
          exact absurd he (by simp)
        · rintro (h | ⟨t2, e2, ht2, hd2⟩)
          · exact absurd h (by simp)
          · cases ht2
            rw [hd] at hd2
            exact absurd hd2 (by simp)
  · intro t request hf hdec2
    simp only [verifyCredentialShareResponseToken, resolveShareRequestToken, hdec,
      hf, hdec2]

/-- C3 witness: the sample resolver maps nonce `nonce-1` to the decodable
`request-token`, so verification proceeds with the resolved token. -/
theorem verifyShareResponse_resolver_witness :
    sampleVerifyShareEnv.decode "response-token" = .ok sampleResponseJwt ∧
    sampleResolver "nonce-1" = some "request-token" ∧
    verifyCredentialShareResponseToken sampleVerifyShareEnv "response-token"
      (.resolver sampleResolver) true =
      .ok { isValid := true, did := "did:elem:holder", nonce := "nonce-1",
            suppliedCredentials := [samplePhoneCredential], errors := [] } :=
  ⟨rfl, rfl,
    (verifyShareResponse_resolver_replayProtection sampleVerifyShareEnv "response-token"
      sampleResponseJwt sampleResolver true rfl).2.2 "request-token" sampleRequestJwt rfl rfl⟩

/-- C4: `buildRevocationListStatus` signs and publishes the revocation-list
credential exactly when the revocation service reported `isPublisRequired`,
while `revokeCredential` signs and publishes unconditionally on every
call. -/
theorem revocation_publish_conditionality
    (env : RevocationEnv) (store : ContextStore) (credential : UnsignedCredentialObject)
    (accessToken credentialId reason accessToken2 : String) :
    ((buildRevocationListStatus env store credential accessToken).2.2 =
      (if (env.serviceBuildStatus credential.id credential.holderId
            accessToken).isPublisRequired
       then [RevocationEffect.publish
              { content := env.signCredential
                  (env.serviceBuildStatus credential.id credential.holderId
                    accessToken).revocationListCredential,
                issuanceDate := env.now }]
       else [])) ∧
    ((buildRevocationListStatus env store credential accessToken).2.2 ≠ [] ↔
      (env.serviceBuildStatus credential.id credential.holderId
        accessToken).isPublisRequired = true) ∧
    (revokeCredential env credentialId reason accessToken2 =
      [RevocationEffect.publish
        { content := env.signCredential (env.serviceRevoke credentialId reason accessToken2),
          issuanceDate := env.now }]) := by
  refine ⟨rfl, ?_, rfl⟩
  cases h : (env.serviceBuildStatus credential.id credential.holderId
      accessToken).isPublisRequired <;>
    simp [buildRevocationListStatus, h]

/-- C4 witness: with the sample service reporting a required publish, the
build step publishes the signed list, and revoking publishes the re-signed
updated list. -/
theorem revocation_publish_conditionality_witness :
    (buildRevocationListStatus sampleRevocationEnv sampleStoreWithUri
      sampleUnsignedCredential "access-token").2.2 =
      [RevocationEffect.publish
        { content := "signed:rev-list-body", issuanceDate := "2021-02-03T10:00:00Z" }] ∧
    revokeCredential sampleRevocationEnv "urn:claim:phone" "Status changed" "access-token" =
      [RevocationEffect.publish
        { content := "signed:rev-list-body-after-revoke",
          issuanceDate := "2021-02-03T10:00:00Z" }] := by
  have h := revocation_publish_conditionality sampleRevocationEnv sampleStoreWithUri
    sampleUnsignedCredential "access-token" "urn:claim:phone" "Status changed" "access-token"
  exact ⟨by simpa using h.1, by simpa using h.2.2⟩

/-- C7 counterexample: an unsigned credential whose context already holds the
revocation-list context URI still gets a second copy pushed — the source
performs no duplicate check, refuting the do-not-duplicate part of the
claim. -/
theorem revocation_context_duplicate_counterexample :
    sampleStoreWithUri 0 =
      ["https://www.w3.org/2018/credentials/v1", revocationContextUri] ∧
    ((buildRevocationListStatus sampleRevocationEnv sampleStoreWithUri
        sampleUnsignedCredential "access-token").2.1) 0 =
      ["https://www.w3.org/2018/credentials/v1", revocationContextUri,
       revocationContextUri] := by
  exact ⟨by decide, by decide⟩

/-- C7 amended: `buildRevocationListStatus` attaches the returned
`credentialStatus` to the credential copy and appends the revocation-list
context URI at the end of the credential's context sequence unconditionally:
the URI's occurrence count always grows by one, so a duplicate entry is
added when the URI was already present. -/
theorem revocation_context_append_unconditional
    (env : RevocationEnv) (store : ContextStore) (credential : UnsignedCredentialObject)
    (accessToken : String) :
    ((buildRevocationListStatus env store credential accessToken).2.1
        credential.contextRef =
      store credential.contextRef ++ [revocationContextUri]) ∧
    (((buildRevocationListStatus env store credential accessToken).2.1
        credential.contextRef).count revocationContextUri =
      (store credential.contextRef).count revocationContextUri + 1) ∧
    ((buildRevocationListStatus env store credential accessToken).1.credentialStatus =
      some (env.serviceBuildStatus credential.id credential.holderId
        accessToken).credentialStatus) := by
  refine ⟨?_, ?_, rfl⟩
  · simp [buildRevocationListStatus, pushAt]
  · simp [buildRevocationListStatus, pushAt, List.count_append]

/-- C7 amended witness: on the sample store that already carries the URI, the
count goes from one to two. -/
theorem revocation_context_append_unconditional_witness :
    ((buildRevocationListStatus sampleRevocationEnv sampleStoreWithUri
        sampleUnsignedCredential "access-token").2.1 0).count revocationContextUri = 2 := by
  have h := (revocation_context_append_unconditional sampleRevocationEnv sampleStoreWithUri
    sampleUnsignedCredential "access-token").2.1
  simpa using h

/-- C10: the revokable credential returned by `buildRevocationListStatus`
shares its context array with the input credential (shallow copy), so the
push of the revocation context URI also grows the caller's original
credential's context by exactly that one entry; no other array and no other
field of the input credential changes, and the copy differs from the input
only by the attached `credentialStatus`. -/
theorem buildRevocationListStatus_mutates_shared_context
    (env : RevocationEnv) (store : ContextStore) (credential : UnsignedCredentialObject)
    (accessToken : String) :
    ((buildRevocationListStatus env store credential accessToken).1.contextRef =
      credential.contextRef) ∧
    (∀ i, (buildRevocationListStatus env store credential accessToken).2.1 i =
      if i = credential.contextRef then store credential.contextRef ++ [revocationContextUri]
      else store i) ∧
    ((buildRevocationListStatus env store credential accessToken).1 =
      { credential with
          credentialStatus := some (env.serviceBuildStatus credential.id
            credential.holderId accessToken).credentialStatus }) := by
  refine ⟨rfl, ?_, rfl⟩
  intro i
  by_cases hi : i = credential.contextRef <;>
    simp [buildRevocationListStatus, pushAt, hi]

/-- C10 witness: on the sample input, the caller's array at reference 0 grew
by the URI and the returned copy kept reference 0 and every other field. -/
theorem buildRevocationListStatus_mutates_witness :
    ((buildRevocationListStatus sampleRevocationEnv sampleStoreWithUri
        sampleUnsignedCredential "access-token").2.1 0 =
      sampleStoreWithUri 0 ++ [revocationContextUri]) ∧
    ((buildRevocationListStatus sampleRevocationEnv sampleStoreWithUri
        sampleUnsignedCredential "access-token").1.otherFields =
      sampleUnsignedCredential.otherFields) := by
  have h := buildRevocationListStatus_mutates_shared_context sampleRevocationEnv
    sampleStoreWithUri sampleUnsignedCredential "access-token"
  refine ⟨by simpa using h.2.1 0, by rw [h.2.2]⟩

/-- C5: `createPresentationFromChallenge` builds a presentation containing
exactly the credentials whose second type tag is among the challenge's
requested types; non-matching credentials are silently dropped and no error
is raised, even when the filtered set is empty. -/
theorem createPresentationFromChallenge_filters_silently
    (env : CreatePresentationEnv) (challenge : String) (vcs : List SignedCredential)
    (domain : String) (challengeJwt : Jwt)
    (hdec : env.decode challenge = .ok challengeJwt) :
    (createPresentationFromChallenge env challenge vcs domain =
      .ok (env.signPresentation
        { id := env.presentationId,
          vcs := vcs.filter (fun vc =>
            (getCredentialTypes env.isW3c challengeJwt).contains (vc.type.get? 1)),
          holderId := env.myDid }
        challenge domain)) ∧
    (∀ vc, vc ∈ vcs.filter (fun vc =>
        (getCredentialTypes env.isW3c challengeJwt).contains (vc.type.get? 1)) ↔
      vc ∈ vcs ∧
        (getCredentialTypes env.isW3c challengeJwt).contains (vc.type.get? 1) = true) ∧
    (∀ e, createPresentationFromChallenge env challenge vcs domain ≠ .error e) := by
  have h1 : createPresentationFromChallenge env challenge vcs domain =
      .ok (env.signPresentation
        { id := env.presentationId,
          vcs := vcs.filter (fun vc =>
            (getCredentialTypes env.isW3c challengeJwt).contains (vc.type.get? 1)),
          holderId := env.myDid }
        challenge domain) := by
    simp only [createPresentationFromChallenge, hdec]
  refine ⟨h1, ?_, ?_⟩
  · intro vc
    exact List.mem_filter
  · intro e
    rw [h1]
    simp

/-- C5 witness: a challenge asking only for phone credentials, supplied with
only an email credential, yields a presentation with an empty credential
set and no error. -/
theorem createPresentationFromChallenge_witness :
    sampleCreatePresentationEnv.decode "challenge-token" = .ok sampleRequestJwt ∧
    createPresentationFromChallenge sampleCreatePresentationEnv "challenge-token"
      [sampleEmailCredential] "example.com" =
      .ok { body := { id := "presentationId:0102030405060708", vcs := [],
                      holderId := "did:elem:holder" },
            proofChallenge := "challenge-token", proofDomain := "example.com" } := by
  refine ⟨rfl, ?_⟩
  rw [(createPresentationFromChallenge_filters_silently sampleCreatePresentationEnv
    "challenge-token" [sampleEmailCredential] "example.com" sampleRequestJwt rfl).1]
  rfl

/-- C6: `verifyPresentation` is two-phase: when phase-1 validation succeeds
but the phase-2 challenge freshness check fails, the result is non-throwing
with `isValid = false`, the validated presentation data kept, and the
phase-2 exception in `errors`; when both phases succeed the result is valid
with the holder's DID and the proof challenge. -/
theorem verifyPresentation_two_phase
    (env : VerifyPresentationEnv) (vp : String) (data : PresentationData)
    (hvalid : env.validatePresentation vp = .valid data) :
    (∀ e, env.verifyPresentationChallenge data.proofChallenge env.myDid = .error e →
      verifyPresentation env vp =
        { isValid := false, suppliedPresentation := .validated data,
          errors := some [e] }) ∧
    (env.verifyPresentationChallenge data.proofChallenge env.myDid = .ok () →
      verifyPresentation env vp =
        { isValid := true, did := some data.holderId,
          challenge := some data.proofChallenge,
          suppliedPresentation := .validated data }) := by
  constructor
  · intro e he
    simp only [verifyPresentation, hvalid, he]
  · intro hok
    simp only [verifyPresentation, hvalid, hok]

/-- C6 witness: the sample environment validates `good-vp` in phase 1 and
fails phase 2 with COR-19, so the result is invalid but keeps the validated
data and reports the phase-2 error. -/
theorem verifyPresentation_two_phase_witness :
    sampleVerifyPresentationEnv.validatePresentation "good-vp" =
      .valid samplePresentationData ∧
    verifyPresentation sampleVerifyPresentationEnv "good-vp" =
      { isValid := false, suppliedPresentation := .validated samplePresentationData,
        errors := some [.base "COR-19" [] []] } :=
  ⟨rfl, (verifyPresentation_two_phase sampleVerifyPresentationEnv "good-vp"
    samplePresentationData rfl).1 (.base "COR-19" [] []) rfl⟩

/-- C8: DID-auth is the share flow specialized to the empty case:
`generateDidAuthRequest` equals the share-request builder at an empty
requirements list, `createDidAuthResponse` equals the share-response
builder at an empty credential list, `verifyDidAuthResponse` equals
share-response verification with the default ownership check, and in the
spec-modelled holder verification an empty-requirement request produces no
type-matching errors — its verdict and error list never depend on the
supplied credentials' types. -/
theorem didAuth_specializes_share_flow :
    (∀ (envR : ShareRequestEnv) (options : Option JwtOptions),
      generateDidAuthRequest envR options =
        generateCredentialShareRequestToken envR [] none options) ∧
    (∀ (envS : ShareResponseEnv) (token : String),
      createDidAuthResponse envS token =
        createCredentialShareResponseToken envS token []) ∧
    (∀ (envV : VerifyShareEnv) (responseToken : String) (requestToken : Option String),
      verifyDidAuthResponse envV responseToken requestToken =
        verifyCredentialShareResponseToken envV responseToken (.token requestToken) true) ∧
    (∀ credentials, typeMatchingErrors [] credentials = []) ∧
    (∀ (signatureErrors claimErrors : List String) (responderDid : String)
        (shouldOwn : Bool) (responseJti : String) (credentials : List SignedCredential)
        (newTypes : SignedCredential → List String),
      (holderVerifyCredentialShareResponse signatureErrors claimErrors responderDid []
          shouldOwn responseJti (retypeCredentials newTypes credentials)).isValid =
        (holderVerifyCredentialShareResponse signatureErrors claimErrors responderDid []
          shouldOwn responseJti credentials).isValid ∧
      (holderVerifyCredentialShareResponse signatureErrors claimErrors responderDid []
          shouldOwn responseJti (retypeCredentials newTypes credentials)).errors =
        (holderVerifyCredentialShareResponse signatureErrors claimErrors responderDid []
          shouldOwn responseJti credentials).errors) := by
  refine ⟨fun _ _ => rfl, fun _ _ => rfl, fun _ _ _ => rfl, fun _ => rfl, ?_⟩
  intro signatureErrors claimErrors responderDid shouldOwn responseJti credentials newTypes
  have hown : ownershipErrors shouldOwn responderDid
      (retypeCredentials newTypes credentials) =
      ownershipErrors shouldOwn responderDid credentials := by
    unfold ownershipErrors retypeCredentials
    cases shouldOwn
    · rfl
    · simp only [List.filterMap_map]
      rfl
  constructor
  · simp only [holderVerifyCredentialShareResponse, hown, typeMatchingErrors,
      List.filterMap_nil]
  · simp only [holderVerifyCredentialShareResponse, hown, typeMatchingErrors,
      List.filterMap_nil]

/-- C9: `storeEncryptedSeed` wraps its store call in a 3-retry bounded loop:
a failure whose code is in the non-retryable set COR-1/WAL-2 bails out at
once with the original error and no further calls; failures with any other
code are wrapped as COR-18 and retried, and when all 1 + 3 calls fail that
way the last wrapped COR-18 error is thrown after exactly 4 calls. -/
theorem storeEncryptedSeed_retry_policy (storeCallResult : Nat → Option SdkError) :
    (∀ k e, k ≤ 3 →
      (∀ j, j < k → ∃ ej, storeCallResult j = some ej ∧
        (["COR-1", "WAL-2"].contains ej.code) = false) →
      storeCallResult k = some e → (["COR-1", "WAL-2"].contains e.code) = true →
      storeEncryptedSeed storeCallResult = (.error e, k + 1)) ∧
    ((∀ j, j ≤ 3 → ∃ ej, storeCallResult j = some ej ∧
        (["COR-1", "WAL-2"].contains ej.code) = false) →
      ∃ e3, storeCallResult 3 = some e3 ∧
        storeEncryptedSeed storeCallResult = (.error (.wrapped "COR-18" e3), 4)) := by
  constructor
  · intro k e hk hprev hke hc
    have hb : storeAttempt storeCallResult k = .bailWith e := by
      simp only [storeAttempt, hke, hc]
      rfl
    interval_cases k
    · simp [storeEncryptedSeed, runRetry, hb]
    · obtain ⟨e0, h0, hc0⟩ := hprev 0 (by omega)
      have ht0 : storeAttempt storeCallResult 0 = .thrown (.wrapped "COR-18" e0) := by
        simp only [storeAttempt, h0, hc0]
        rfl
      simp [storeEncryptedSeed, runRetry, ht0, hb]
    · obtain ⟨e0, h0, hc0⟩ := hprev 0 (by omega)
      obtain ⟨e1, h1, hc1⟩ := hprev 1 (by omega)
      have ht0 : storeAttempt storeCallResult 0 = .thrown (.wrapped "COR-18" e0) := by
        simp only [storeAttempt, h0, hc0]
        rfl
      have ht1 : storeAttempt storeCallResult 1 = .thrown (.wrapped "COR-18" e1) := by
        simp only [storeAttempt, h1, hc1]
        rfl
      simp [storeEncryptedSeed, runRetry, ht0, ht1, hb]
    · obtain ⟨e0, h0, hc0⟩ := hprev 0 (by omega)
      obtain ⟨e1, h1, hc1⟩ := hprev 1 (by omega)
      obtain ⟨e2, h2, hc2⟩ := hprev 2 (by omega)
      have ht0 : storeAttempt storeCallResult 0 = .thrown (.wrapped "COR-18" e0) := by
        simp only [storeAttempt, h0, hc0]
        rfl
      have ht1 : storeAttempt storeCallResult 1 = .thrown (.wrapped "COR-18" e1) := by
        simp only [storeAttempt, h1, hc1]
        rfl
      have ht2 : storeAttempt storeCallResult 2 = .thrown (.wrapped "COR-18" e2) := by
        simp only [storeAttempt, h2, hc2]
        rfl
      simp [storeEncryptedSeed, runRetry, ht0, ht1, ht2, hb]
  · intro hall
    obtain ⟨e0, h0, hc0⟩ := hall 0 (by omega)
    obtain ⟨e1, h1, hc1⟩ := hall 1 (by omega)
    obtain ⟨e2, h2, hc2⟩ := hall 2 (by omega)
    obtain ⟨e3, h3, hc3⟩ := hall 3 (by omega)
    have ht0 : storeAttempt storeCallResult 0 = .thrown (.wrapped "COR-18" e0) := by
      simp only [storeAttempt, h0, hc0]
      rfl
    have ht1 : storeAttempt storeCallResult 1 = .thrown (.wrapped "COR-18" e1) := by
      simp only [storeAttempt, h1, hc1]
      rfl
    have ht2 : storeAttempt storeCallResult 2 = .thrown (.wrapped "COR-18" e2) := by
      simp only [storeAttempt, h2, hc2]
      rfl
    have ht3 : storeAttempt storeCallResult 3 = .thrown (.wrapped "COR-18" e3) := by
      simp only [storeAttempt, h3, hc3]
      rfl
    exact ⟨e3, h3, by simp [storeEncryptedSeed, runRetry, ht0, ht1, ht2, ht3]⟩

/-- C9 witness: a store that always fails with the retryable code WAL-99 is
called exactly 4 times and ends in the wrapped COR-18 error; a store failing
with the non-retryable WAL-2 bails after a single call with the original
error. -/
theorem storeEncryptedSeed_retry_policy_witness :
    storeEncryptedSeed sampleAlwaysFailingStore =
      (.error (.wrapped "COR-18" (.base "WAL-99" [] [])), 4) ∧
    storeEncryptedSeed sampleBailingStore = (.error (.base "WAL-2" [] []), 1) := by
  constructor
  · obtain ⟨e3, h3, heq⟩ :=
      (storeEncryptedSeed_retry_policy sampleAlwaysFailingStore).2
        (fun j _ => ⟨.base "WAL-99" [] [], rfl, rfl⟩)
    cases h3
    exact heq
  · exact (storeEncryptedSeed_retry_policy sampleBailingStore).1 0 (.base "WAL-2" [] [])
      (by omega) (fun j hj => absurd hj (by omega)) rfl rfl

end AffinidiSdk
